import Mathlib

/-!
Verification of the histdata.com-tools pipeline orchestrator and CLI
validation layer, shallowly embedded from
src/histdatacom/histdata_com.py and src/histdatacom/cli.py.
-/

/-- The five pipeline stages named by the specification:
validate, download, extract, clean, load. -/
inductive Stage
  | validate
  | download
  | extract
  | clean
  | load
deriving DecidableEq, Repr

/-- The fixed stage order of the specification. -/
def stageOrderList : List Stage :=
  [Stage.validate, Stage.download, Stage.extract, Stage.clean, Stage.load]

/-- The boolean configuration flags consulted by _HistDataCom.run and
_HistDataCom.__init__ (config.args entries set by the CLI layer or by
api mode). -/
structure Config where
  validate_urls : Bool
  download_data_archives : Bool
  extract_csvs : Bool
  clean_data : Bool
  import_to_influxdb : Bool
  from_api : Bool
deriving DecidableEq, Repr

/-- The tail of _HistDataCom.run after the download block: the extract
branch (guarded by extract_csvs) followed by the influx import branch
(guarded by import_to_influxdb). -/
def runTail (c : Config) : List Stage :=
  (if c.extract_csvs then [Stage.extract] else []) ++
  (if c.import_to_influxdb then [Stage.load] else [])

/-- The sequence of pipeline stages dispatched by _HistDataCom.run, in
program order: validate_urls guards the validate stage, then
download_data_archives guards download_zips; inside the download branch,
from_api causes an early return (validate_jays and merge_jays are api-mode
operations, not one of the five stages), skipping the rest of the method.
No branch of run dispatches a clean stage. -/
def runStages (c : Config) : List Stage :=
  (if c.validate_urls then [Stage.validate] else []) ++
  (if c.download_data_archives then
    Stage.download :: (if c.from_api then [] else runTail c)
  else runTail c)

/-- Written from the spec's words, for comparison with runStages:
the claimed behavior is that exactly the enabled subset of the five
stages runs, in the fixed stage order. -/
def specEnabledStages (c : Config) : List Stage :=
  (if c.validate_urls then [Stage.validate] else []) ++
  (if c.download_data_archives then [Stage.download] else []) ++
  (if c.extract_csvs then [Stage.extract] else []) ++
  (if c.clean_data then [Stage.clean] else []) ++
  (if c.import_to_influxdb then [Stage.load] else [])

/-- Whether a stage's enabling flag is set in the configuration
(the spec's enabledStages subset). -/
def stageEnabled (c : Config) : Stage → Bool
  | Stage.validate => c.validate_urls
  | Stage.download => c.download_data_archives
  | Stage.extract => c.extract_csvs
  | Stage.clean => c.clean_data
  | Stage.load => c.import_to_influxdb

/-- Whether _HistDataCom.run actually dispatches a given stage under a
given configuration (characterisation of membership in runStages). -/
def executed (c : Config) : Stage → Bool
  | Stage.validate => c.validate_urls
  | Stage.download => c.download_data_archives
  | Stage.extract => c.extract_csvs && !(c.download_data_archives && c.from_api)
  | Stage.clean => false
  | Stage.load => c.import_to_influxdb && !(c.download_data_archives && c.from_api)

/-- The effect of one phase of _HistDataCom.run on the record-set state:
a dispatched stage applies its collaborator transformation f, a phase
whose stage is not dispatched executes no code and leaves the state
untouched. -/
def phaseTransform {RS : Type} (c : Config) (f : Stage → RS → RS) (st : Stage) (rs : RS) : RS :=
  if executed c st then f st rs else rs

/-- The record-set effect of the whole of _HistDataCom.run: the dispatched
stages are applied in program order to the record-set state. -/
def runEffect {RS : Type} (c : Config) (f : Stage → RS → RS) (rs : RS) : RS :=
  (runStages c).foldl (fun s st => f st s) rs

/-- A configuration in which only the clean stage is enabled. -/
def cleanOnlyConfig : Config :=
  { validate_urls := false
    download_data_archives := false
    extract_csvs := false
    clean_data := true
    import_to_influxdb := false
    from_api := false }

/-- Position of a stage in the fixed stage order. -/
def stageIdx : Stage → Nat
  | Stage.validate => 0
  | Stage.download => 1
  | Stage.extract => 2
  | Stage.clean => 3
  | Stage.load => 4

/-! Stage-boundary trace model for the checkpoint-commit ordering claim. -/

/-- An observable event of a pipeline run: a worker attempt of a stage on a
record, or the orchestrator's checkpoint commit for a record at the end of
a stage. Records are identified by natural numbers. -/
inductive Ev
  | attempt (st : Stage) (r : Nat)
  | commit (st : Stage) (r : Nat)
deriving DecidableEq, Repr

/-- The stage an event belongs to. -/
def stageOf : Ev → Stage
  | Ev.attempt st _ => st
  | Ev.commit st _ => st

/-- Modelled from the spec: the Worker Pool and Checkpoint Store modules
(histdatacom.concurrency and the records machinery) are not under src;
per the spec, within one stage every record of the current record set is
attempted, and after every record has been resolved the orchestrator
commits checkpoints for all of them before the next stage starts. -/
def stageTrace (st : Stage) (recs : List Nat) : List Ev :=
  recs.map (Ev.attempt st) ++ recs.map (Ev.commit st)

/-- Modelled from the spec: the event trace of a pipeline run is the
concatenation of the per-stage traces of the stages executed in order. -/
def pipelineTrace : List Stage → List Nat → List Ev
  | [], _ => []
  | st :: rest, recs => stageTrace st recs ++ pipelineTrace rest recs

/-! CLI datetime-validation layer, embedded from cli.py. Python string or
None values are Option String; Python truthiness of such a value is
falseness of None and of the empty string. -/

/-- Errors with which the cli validation layer terminates the process:
one constructor per raise site in cli.py (each reaches
exit_on_datetime_error, which prints and exits), plus nameError for the
unhandled unbound-local crash in check_for_now_in_yearmonth. -/
inductive CliErr
  | endYearmonthCannotBeStart
  | startMustHaveEnd
  | noEndYearmonth
  | noStartYearmonth
  | startMonthZero
  | startMonthGt12
  | noEndMonth
  | endMonthZero
  | endMonthGt12
  | sameStartEnd
  | startPriorToDataset
  | startInFuture
  | endPriorToDataset
  | endInFuture
  | endBeforeStart
  | badYearmonthFormat
  | nameError
deriving DecidableEq, Repr

/-- The two fields of the argparse namespace consulted by
check_datetime_input. -/
structure DtArgs where
  start_yearmonth : Option String
  end_yearmonth : Option String
deriving DecidableEq, Repr

/-- Python truthiness of a string-or-None value: None and the empty
string are falsy. -/
def truthyStr : Option String → Bool
  | none => false
  | some s => !(s == "")

/-- Python truthiness of a plain string. -/
def truthyS (s : String) : Bool := !(s == "")

/-- Modelled from the spec: histdatacom.utils.get_year_from_datemonth is
not under src; it extracts the four-digit year prefix of a datemonth
string, and the empty string from None or a short value. -/
def get_year_from_datemonth : Option String → String
  | none => ""
  | some s => String.mk (s.data.take 4)

/-- Modelled from the spec: histdatacom.utils.get_month_from_datemonth is
not under src; it extracts the two-digit month following the year of a
datemonth string, and the empty string when absent. -/
def get_month_from_datemonth : Option String → String
  | none => ""
  | some s => String.mk ((s.data.drop 4).take 2)

/-- Python int() on the digit strings that reach the comparisons of
cli.py (every such string has passed the yearmonth format gate):
decimal value of a nonempty all-digit string. -/
def toNatD (s : String) : Nat :=
  if !(s.data.isEmpty) && s.data.all Char.isDigit then
    s.data.foldl (fun n c => n * 10 + (c.toNat - 48)) 0
  else 0

/-- Python str.lower, character by character. -/
def lowerStr (s : String) : String := String.mk (s.data.map Char.toLower)

/-- Python int() applied to an optional digit string. -/
def optNat : Option String → Nat
  | none => 0
  | some s => toNatD s

/-- The punctuation class of the regex in replace_date_punct. -/
def isPunct (ch : Char) : Bool :=
  ch = '-' || ch = '_' || ch = '.' || ch = ':' || ch = ' '

/-- ArgParser.replace_date_punct: remove date punctuation characters;
None becomes the empty string. -/
def replace_date_punct : Option String → String
  | none => ""
  | some s => String.mk (s.data.filter (fun ch => !(isPunct ch)))

/-- The first regex of validate_yearmonth_format: four digits, one
punctuation character, two digits. -/
def ymPatternPunct (cs : List Char) : Bool :=
  match cs with
  | [a, b, c, d, p, e, f] =>
    a.isDigit && b.isDigit && c.isDigit && d.isDigit && isPunct p && e.isDigit && f.isDigit
  | _ => false

/-- The second regex of validate_yearmonth_format: exactly six digits. -/
def ymPatternSix (cs : List Char) : Bool :=
  cs.length = 6 && cs.all Char.isDigit

/-- The third regex of validate_yearmonth_format: exactly four digits. -/
def ymPatternFour (cs : List Char) : Bool :=
  cs.length = 4 && cs.all Char.isDigit

/-- ArgParser.validate_yearmonth_format: accept year-month with
punctuation, six digits, four digits, the keywords now and start, or the
empty string, returning the punctuation-stripped value; otherwise exit
with a format error. -/
def validate_yearmonth_format (ym : String) : Except CliErr String :=
  if ymPatternPunct ym.data || ymPatternSix ym.data || ymPatternFour ym.data
      || lowerStr ym = "now" || lowerStr ym = "start" || ym = "" then
    Except.ok (replace_date_punct (some ym))
  else Except.error CliErr.badYearmonthFormat

/-- ArgParser.check_for_start_in_yearmonth: expand the keyword start to
200001 when an end is also given, reject start as an end keyword or a
lone start keyword, and otherwise pass the pair through. -/
def check_for_start_in_yearmonth (a : DtArgs) : Except CliErr (Option String × Option String) :=
  if truthyStr a.start_yearmonth then
    if a.start_yearmonth = some "start" then
      if truthyStr a.end_yearmonth then
        if a.end_yearmonth = some "start" then Except.error CliErr.endYearmonthCannotBeStart
        else Except.ok (some "200001", a.end_yearmonth)
      else Except.error CliErr.startMustHaveEnd
    else Except.ok (a.start_yearmonth, a.end_yearmonth)
  else Except.ok (a.start_yearmonth, a.end_yearmonth)

/-- ArgParser.check_for_now_in_yearmonth: substitute the current
datemonth (the now parameter) for the keyword now. When
start_yearmonth is falsy the outer if-body is skipped, so the local
end_yearmonth of the Python function is never assigned and the final
return statement raises an unhandled NameError. -/
def check_for_now_in_yearmonth (now : String) (a : DtArgs) :
    Except CliErr (Option String × Option String) :=
  if truthyStr a.start_yearmonth then
    if a.start_yearmonth = some "now" then Except.ok (some now, none)
    else if truthyStr a.end_yearmonth then
      if a.end_yearmonth = some "now" then Except.ok (a.start_yearmonth, some now)
      else Except.ok (a.start_yearmonth, a.end_yearmonth)
    else Except.ok (a.start_yearmonth, a.end_yearmonth)
  else Except.error CliErr.nameError

/-- ArgParser.check_cli_start_yearmonth: a year-only start is rewritten
to year00 with the end dropped unless an end was given, a zero or
oversized start month is rejected, and otherwise the pair passes
through. -/
def check_cli_start_yearmonth (a : DtArgs) : Except CliErr (Option String × Option String) :=
  let start_year := get_year_from_datemonth a.start_yearmonth
  let start_month := get_month_from_datemonth a.start_yearmonth
  if !(truthyS start_month) then
    if truthyStr a.end_yearmonth then
      if !(truthyS start_year) then Except.error CliErr.noStartYearmonth
      else Except.error CliErr.noEndYearmonth
    else Except.ok (some (start_year ++ "00"), none)
  else if start_month = "00" then Except.error CliErr.startMonthZero
  else if 12 < toNatD start_month then Except.error CliErr.startMonthGt12
  else Except.ok (a.start_yearmonth, a.end_yearmonth)

/-- ArgParser.check_cli_end_yearmonth: when an end is given, reject a
missing, zero, or oversized end month. -/
def check_cli_end_yearmonth (a : DtArgs) : Except CliErr Unit :=
  if truthyStr a.end_yearmonth then
    let end_year := get_year_from_datemonth a.end_yearmonth
    let end_month := get_month_from_datemonth a.end_yearmonth
    if truthyS end_year && !(truthyS end_month) then Except.error CliErr.noEndMonth
    else if end_month = "00" then Except.error CliErr.endMonthZero
    else if 12 < toNatD end_month then Except.error CliErr.endMonthGt12
    else Except.ok ()
  else Except.ok ()

/-- ArgParser.check_for_same_start_yearmonth: reject a configuration
whose start year-month equals its end year-month. -/
def check_for_same_start_yearmonth (a : DtArgs) : Except CliErr Unit :=
  let k1 := get_year_from_datemonth a.start_yearmonth ++ "_" ++
    get_month_from_datemonth a.start_yearmonth
  let k2 := get_year_from_datemonth a.end_yearmonth ++ "_" ++
    get_month_from_datemonth a.end_yearmonth
  if k1 = k2 then Except.error CliErr.sameStartEnd else Except.ok ()

/-- ArgParser.replace_falsey_yearmonth_with_none. -/
def replace_falsey_yearmonth_with_none (a : DtArgs) : Option String × Option String :=
  (if !(truthyStr a.start_yearmonth) then none else a.start_yearmonth,
   if !(truthyStr a.end_yearmonth) then none else a.end_yearmonth)

/-- ArgParser.check_start_yearmonth_in_range: a start before 200000 or
after the current datemonth is rejected. -/
def check_start_yearmonth_in_range (now : String) (a : DtArgs) : Except CliErr Unit :=
  if truthyStr a.start_yearmonth then
    if optNat a.start_yearmonth < 200000 then Except.error CliErr.startPriorToDataset
    else if toNatD now < optNat a.start_yearmonth then Except.error CliErr.startInFuture
    else Except.ok ()
  else Except.ok ()

/-- ArgParser.check_end_yearmonth_in_range: an end before 200000 or
after the current datemonth is rejected. -/
def check_end_yearmonth_in_range (now : String) (a : DtArgs) : Except CliErr Unit :=
  if truthyStr a.end_yearmonth then
    if optNat a.end_yearmonth < 200000 then Except.error CliErr.endPriorToDataset
    else if toNatD now < optNat a.end_yearmonth then Except.error CliErr.endInFuture
    else Except.ok ()
  else Except.ok ()

/-- ArgParser.check_start_lessthan_end: when both are given, an end
before the start is rejected. -/
def check_start_lessthan_end (a : DtArgs) : Except CliErr Unit :=
  if truthyStr a.start_yearmonth && truthyStr a.end_yearmonth then
    if optNat a.end_yearmonth < optNat a.start_yearmonth then
      Except.error CliErr.endBeforeStart
    else Except.ok ()
  else Except.ok ()

/-- ArgParser.check_datetime_input: the full validation sequence with the
namespace fields rewritten between steps exactly as in cli.py; any error
is the process exiting (or crashing, for nameError). -/
def check_datetime_input (now : String) (a0 : DtArgs) : Except CliErr DtArgs := do
  let a ←
    if truthyStr a0.start_yearmonth || truthyStr a0.end_yearmonth then do
      let p1 ← check_for_start_in_yearmonth a0
      let a1 : DtArgs := ⟨p1.1, p1.2⟩
      let p2 ← check_for_now_in_yearmonth now a1
      let a2 : DtArgs := ⟨p2.1, p2.2⟩
      let p3 ← check_cli_start_yearmonth a2
      let a3 : DtArgs := ⟨p3.1, p3.2⟩
      let _ ← check_cli_end_yearmonth a3
      let _ ← check_for_same_start_yearmonth a3
      pure a3
    else pure a0
  let p4 := replace_falsey_yearmonth_with_none a
  let a4 : DtArgs := ⟨p4.1, p4.2⟩
  let _ ← check_start_yearmonth_in_range now a4
  let _ ← check_end_yearmonth_in_range now a4
  let _ ← check_start_lessthan_end a4
  pure a4

/-- The argparse step applied to the two yearmonth options before
check_datetime_input: an absent option keeps the default empty string of
ArgsNamespace, a present option is passed through
validate_yearmonth_format. -/
def parse_yearmonth_arg : Option String → Except CliErr (Option String)
  | none => Except.ok (some "")
  | some raw => (validate_yearmonth_format raw).map some

/-- ArgParser.__init__ lines 101 to 104: parse the two yearmonth options
and then run check_datetime_input on the namespace. -/
def argparser_check (now : String) (rawStart rawEnd : Option String) : Except CliErr DtArgs := do
  let s ← parse_yearmonth_arg rawStart
  let e ← parse_yearmonth_arg rawEnd
  check_datetime_input now ⟨s, e⟩

/-- Observable output events of the process: an error message printed by
exit_on_datetime_error, or a run summary report. -/
inductive OutEv
  | errMsg (e : CliErr)
  | summaryReport
deriving DecidableEq, Repr

/-- Whether an output event is a summary report. -/
def isSummary : OutEv → Bool
  | OutEv.summaryReport => true
  | _ => false

/-- The observable result of one process invocation. -/
structure ProcResult where
  exitCode : Nat
  stagesExecuted : List Stage
  output : List OutEv
deriving DecidableEq, Repr

/-- The process-level flow of histdata_com.py: ArgParser runs inside
the orchestrator constructor, so a validation error makes
exit_on_datetime_error print the error and call sys.exit with the error
object (exit status 1, and status 1 likewise for the unhandled NameError
crash), before _HistDataCom.run dispatches any stage; on acceptance the
run dispatches runStages. Neither exit path of cli.py prints a summary
report. -/
def processRun (now : String) (rawStart rawEnd : Option String) (c : Config) : ProcResult :=
  match argparser_check now rawStart rawEnd with
  | Except.error e => { exitCode := 1, stagesExecuted := [], output := [OutEv.errMsg e] }
  | Except.ok _ => { exitCode := 0, stagesExecuted := runStages c, output := [] }

/-! Constructor effects and Python call binding, embedded from
histdata_com.py and cli.py. -/

/-- Python semantics: an argparse store_true flag holds a bool, and the
comparison with 1 in the source (import_to_influxdb equals 1) holds for a
Python bool exactly when the bool is True. -/
def py_bool_eq_one (b : Bool) : Bool := b

/-- Observable effects of the influx-related part of
_HistDataCom.__init__: whether load_influx_yaml was called, which
credential keys were written into config.args, and whether the _Influx
load component was constructed. -/
structure HistInit where
  credsRead : Bool
  influxKeys : List String
  influxConstructed : Bool
deriving DecidableEq, Repr

/-- _HistDataCom.__init__ lines 41 to 59: both influx blocks are guarded
by the comparison of the import_to_influxdb flag with 1; the first reads
influxdb.yaml and writes the four INFLUX credential entries, the second
constructs the _Influx component. -/
def histInit (import_to_influxdb : Bool) : HistInit :=
  if py_bool_eq_one import_to_influxdb then
    { credsRead := true
      influxKeys := ["INFLUX_ORG", "INFLUX_BUCKET", "INFLUX_URL", "INFLUX_TOKEN"]
      influxConstructed := true }
  else
    { credsRead := false
      influxKeys := []
      influxConstructed := false }

/-- Shape of a Python callable for positional-argument binding: how many
positional parameters it accepts (self included, no star-args), and
whether it takes a double-star keyword parameter (which absorbs only
keyword arguments, never positional ones). -/
structure PyCallable where
  posParams : Nat
  hasVarKeyword : Bool
deriving DecidableEq, Repr

/-- Signature of ArgParser.__init__ in cli.py:
def __init__ of self and double-star kwargs only, so exactly one
positional parameter. -/
def argparser_init_sig : PyCallable :=
  { posParams := 1, hasVarKeyword := true }

/-- Outcome of evaluating a Python expression: a value, or an uncaught
TypeError. -/
inductive PyOutcome (A : Type)
  | ok (a : A)
  | typeError
deriving DecidableEq

/-- Python call binding for a call with only positional arguments:
binding succeeds exactly when the positional argument count does not
exceed the callable's positional parameters (a double-star keyword
parameter never absorbs positional arguments). -/
def py_call_positional (sig : PyCallable) (nPosArgs : Nat) : PyOutcome Unit :=
  if nPosArgs ≤ sig.posParams then PyOutcome.ok () else PyOutcome.typeError

/-- The first statement of _HistDataCom.__init__ evaluates
ArgParser of options: instance creation binds self plus the one
positional argument options, two positional arguments in total. -/
def histdatacom_init_first_stmt : PyOutcome Unit :=
  py_call_positional argparser_init_sig 2

/-- _HistDataCom.__init__ as far as Python call binding is concerned: the
first statement either raises or, were it to succeed, the remainder of
the constructor would run (that branch is unreachable, see
c8_constructor_type_error). -/
def histdatacom_init {A B C D : Type}
    (_records_current : A) (_records_next : B)
    (_csv_chunks_queue : C) (_options : D) : PyOutcome Unit :=
  match histdatacom_init_first_stmt with
  | PyOutcome.ok _ => PyOutcome.ok ()
  | PyOutcome.typeError => PyOutcome.typeError

/-! The _arg_list_to_set utility, embedded from cli.py. -/

/-- Python values appearing in the args mapping: strings, bools, lists
and sets (with string elements, as in the pairs, platforms and
timeframes arguments). -/
inductive PyVal
  | pyStr (s : String)
  | pyBool (b : Bool)
  | pyList (xs : List String)
  | pySet (xs : List String)
deriving DecidableEq, Repr

/-- ArgParser._arg_list_to_set: every list-valued entry of the args
mapping is replaced by the set of the list's elements, every other entry
is unchanged; a Python set is modelled by its deduplicated element
list. -/
def _arg_list_to_set (args : List (String × PyVal)) : List (String × PyVal) :=
  args.map (fun kv =>
    match kv.2 with
    | PyVal.pyList l => (kv.1, PyVal.pySet l.dedup)
    | _ => kv)

/-! Theorems. -/

theorem stageOf_mem_stageTrace (e : Ev) (st : Stage) (recs : List Nat)
    (h : e ∈ stageTrace st recs) : stageOf e = st := by
  simp only [stageTrace, List.mem_append, List.mem_map] at h
  rcases h with ⟨r, _, rfl⟩ | ⟨r, _, rfl⟩ <;> rfl

theorem stageOf_mem_pipelineTrace (e : Ev) (sts : List Stage) (recs : List Nat)
    (h : e ∈ pipelineTrace sts recs) : stageOf e ∈ sts := by
  induction sts with
  | nil => simp [pipelineTrace] at h
  | cons s rest ih =>
    simp only [pipelineTrace, List.mem_append] at h
    rcases h with h | h
    · simp [stageOf_mem_stageTrace e s recs h]
    · exact List.mem_cons_of_mem _ (ih h)

theorem pipelineTrace_append (a b : List Stage) (recs : List Nat) :
    pipelineTrace (a ++ b) recs = pipelineTrace a recs ++ pipelineTrace b recs := by
  induction a with
  | nil => simp [pipelineTrace]
  | cons s rest ih => simp [pipelineTrace, ih]

theorem commit_mem_stageTrace (K : Stage) (recs : List Nat) (r : Nat) (hr : r ∈ recs) :
    Ev.commit K r ∈ stageTrace K recs := by
  simp only [stageTrace, List.mem_append, List.mem_map]
  exact Or.inr ⟨r, hr, rfl⟩

theorem executed_false_of_not_enabled (c : Config) (st : Stage)
    (h : stageEnabled c st = false) : executed c st = false := by
  cases st <;> simp_all [stageEnabled, executed]

/-- C1: the claim that _HistDataCom.run executes exactly the enabled
subset of the five stages in fixed order fails: with only the clean
flag set, run dispatches no stage at all, while the claim demands the
clean stage run. -/
theorem c1_counterexample :
    runStages cleanOnlyConfig ≠ specEnabledStages cleanOnlyConfig := by
  decide

/-- C1 amended: _HistDataCom.run dispatches stages in the fixed stage
order; validate and download run exactly when their flags are set;
extract and load run exactly when their flags are set and the run was
not cut short by the early return of api mode (download enabled together
with from_api); the clean stage is never dispatched by run. -/
theorem c1_amended (c : Config) :
    List.Sublist (runStages c) stageOrderList
  ∧ (Stage.validate ∈ runStages c ↔ c.validate_urls = true)
  ∧ (Stage.download ∈ runStages c ↔ c.download_data_archives = true)
  ∧ (Stage.extract ∈ runStages c ↔
      (c.extract_csvs = true ∧ ¬(c.download_data_archives = true ∧ c.from_api = true)))
  ∧ Stage.clean ∉ runStages c
  ∧ (Stage.load ∈ runStages c ↔
      (c.import_to_influxdb = true ∧ ¬(c.download_data_archives = true ∧ c.from_api = true))) := by
  rcases c with ⟨v, d, x, cl, i, fa⟩
  cases v <;> cases d <;> cases x <;> cases cl <;> cases i <;> cases fa <;> decide

/-- C3: a disabled stage is an identity transform on the record-set
state, and the whole of run factors as the fixed stage order's phases
applied in sequence, so the record set entering the next enabled stage
is exactly the one that entered the disabled phase. -/
theorem c3_disabled_stage_identity {RS : Type} (c : Config) (f : Stage → RS → RS)
    (st : Stage) (rs0 rs : RS) (h : stageEnabled c st = false) :
    phaseTransform c f st rs = rs
  ∧ runEffect c f rs0 = stageOrderList.foldl (fun s u => phaseTransform c f u s) rs0 := by
  constructor
  · simp [phaseTransform, executed_false_of_not_enabled c st h]
  · rcases c with ⟨v, d, x, cl, i, fa⟩
    cases v <;> cases d <;> cases x <;> cases cl <;> cases i <;> cases fa <;> rfl

/-- Witness for c3_disabled_stage_identity at a concrete configuration,
collaborator and record-set state. -/
theorem c3_witness :
    phaseTransform cleanOnlyConfig (fun _ n => n + 1) Stage.validate (0 : Nat) = 0
  ∧ runEffect cleanOnlyConfig (fun _ n => n + 1) (0 : Nat)
      = stageOrderList.foldl
          (fun s u => phaseTransform cleanOnlyConfig (fun _ n => n + 1) u s) 0 :=
  c3_disabled_stage_identity cleanOnlyConfig (fun _ n => n + 1) Stage.validate 0 0 (by decide)

/-- C7: the influx credential configuration is read and the _Influx load
component constructed if and only if the import_to_influxdb flag is set;
when unset, no credential entry is written and no load component
exists. -/
theorem c7_influx_iff_load : ∀ b : Bool,
    (histInit b).credsRead = b
  ∧ (histInit b).influxConstructed = b
  ∧ ((histInit b).influxKeys ≠ [] ↔ b = true) := by
  decide

/-- C8: for every argument tuple, the orchestrator constructor
_HistDataCom.__init__ raises TypeError at its first statement, because
ArgParser of options passes a positional argument to an initializer that
accepts only self positionally, so the constructor never completes. -/
theorem c8_constructor_type_error {A B C D : Type}
    (records_current : A) (records_next : B) (csv_chunks_queue : C) (options : D) :
    histdatacom_init records_current records_next csv_chunks_queue options
      = PyOutcome.typeError := rfl

/-- C2: in the modelled pipeline trace over the stages dispatched by
run, for every record of the record set and every pair of consecutive
stages K, K1 of the run, every attempt of stage K1 on the record is
strictly preceded in the trace by the stage-K checkpoint commit for that
record. -/
theorem c2_stage_boundary_commit (c : Config) (recs : List Nat) (K K1 : Stage)
    (l1 l2 : List Stage) (r j : Nat)
    (hdec : runStages c = l1 ++ K :: K1 :: l2)
    (hnotin : K1 ∉ l1) (hne : K1 ≠ K) (hr : r ∈ recs)
    (hj : (pipelineTrace (runStages c) recs)[j]? = some (Ev.attempt K1 r)) :
    ∃ i, i < j ∧ (pipelineTrace (runStages c) recs)[i]? = some (Ev.commit K r) := by
  rw [hdec] at hj ⊢
  have hre : pipelineTrace (l1 ++ K :: K1 :: l2) recs
      = (pipelineTrace l1 recs ++ stageTrace K recs)
        ++ (stageTrace K1 recs ++ pipelineTrace l2 recs) := by
    rw [pipelineTrace_append]
    simp [pipelineTrace, List.append_assoc]
  rw [hre] at hj ⊢
  set A := pipelineTrace l1 recs ++ stageTrace K recs with hA
  have hcm : Ev.commit K r ∈ A :=
    List.mem_append_right _ (commit_mem_stageTrace K recs r hr)
  obtain ⟨i0, hi0⟩ := List.mem_iff_getElem?.mp hcm
  have hi0lt : i0 < A.length := by
    rcases List.getElem?_eq_some_iff.mp hi0 with ⟨hlen, _⟩
    exact hlen
  have hjge : A.length ≤ j := by
    by_contra hlt
    push_neg at hlt
    rw [List.getElem?_append_left hlt] at hj
    have hmem : Ev.attempt K1 r ∈ A := List.getElem?_mem hj
    rcases List.mem_append.mp hmem with h1 | h2
    · have hst := stageOf_mem_pipelineTrace _ _ _ h1
      exact hnotin (by simpa [stageOf] using hst)
    · have hst := stageOf_mem_stageTrace _ _ _ h2
      exact hne (by simpa [stageOf] using hst)
  refine ⟨i0, lt_of_lt_of_le hi0lt hjge, ?_⟩
  rw [List.getElem?_append_left hi0lt]
  exact hi0

/-- Witness for c2_stage_boundary_commit: with every stage flag enabled
and api mode off, run dispatches validate, download, extract, load; for
the single record 0, the download attempt at trace index 2 is preceded
by the validate commit. -/
theorem c2_witness :
    ∃ i, i < 2 ∧
      (pipelineTrace (runStages ⟨true, true, true, true, true, false⟩) [0])[i]?
        = some (Ev.commit Stage.validate 0) :=
  c2_stage_boundary_commit ⟨true, true, true, true, true, false⟩ [0]
    Stage.validate Stage.download [] [Stage.extract, Stage.load] 0 2
    (by decide) (by decide) (by decide) (by decide) (by decide)

/-- C4: every input rejected by the datetime validation layer makes the
process terminate with a non-zero exit status (exit_on_datetime_error
calls sys.exit with the error object, status 1), and the exit happens
inside the constructor, before any stage is dispatched. -/
theorem c4_reject_exits_before_stages (now : String) (rawStart rawEnd : Option String)
    (c : Config) (e : CliErr)
    (h : argparser_check now rawStart rawEnd = Except.error e) :
    (processRun now rawStart rawEnd c).exitCode ≠ 0
  ∧ (processRun now rawStart rawEnd c).stagesExecuted = [] := by
  simp [processRun, h]

/-- Witness for c4_reject_exits_before_stages at the malformed start
value 21-01, which fails the yearmonth format gate. -/
theorem c4_witness :
    (processRun "202510" (some "21-01") none cleanOnlyConfig).exitCode ≠ 0
  ∧ (processRun "202510" (some "21-01") none cleanOnlyConfig).stagesExecuted = [] :=
  c4_reject_exits_before_stages "202510" (some "21-01") none cleanOnlyConfig
    CliErr.badYearmonthFormat rfl

/-- C5: the claim that a terminal-status summary report is emitted
before every exit fails: a configuration-rejection exit (here a start
year-month before 2000) prints only the error message, no summary. -/
theorem c5_counterexample :
    (processRun "202510" (some "1999-01") none cleanOnlyConfig).exitCode ≠ 0
  ∧ (processRun "202510" (some "1999-01") none cleanOnlyConfig).output.any isSummary = false := by
  exact ⟨by decide, rfl⟩

/-- C5 amended: on an exit caused by configuration rejection, only the
error message is printed before the process exits; no summary report is
emitted on that path. -/
theorem c5_no_summary_on_rejection (now : String) (rawStart rawEnd : Option String)
    (c : Config) (e : CliErr)
    (h : argparser_check now rawStart rawEnd = Except.error e) :
    (processRun now rawStart rawEnd c).output = [OutEv.errMsg e]
  ∧ (processRun now rawStart rawEnd c).output.any isSummary = false := by
  simp [processRun, h, isSummary]

/-- Witness for c5_no_summary_on_rejection at a start year-month in the
future. -/
theorem c5_witness :
    (processRun "202510" (some "3001-01") none cleanOnlyConfig).output
      = [OutEv.errMsg CliErr.startInFuture]
  ∧ (processRun "202510" (some "3001-01") none cleanOnlyConfig).output.any isSummary = false :=
  c5_no_summary_on_rejection "202510" (some "3001-01") none cleanOnlyConfig
    CliErr.startInFuture rfl

/-- C6: the claim that a configuration whose start and end periods are
the same valid year-month denotes the single-month range and is accepted
fails: check_for_same_start_yearmonth rejects start 2021-01 with end
2021-01. -/
theorem c6_counterexample :
    argparser_check "202510" (some "2021-01") (some "2021-01")
      = Except.error CliErr.sameStartEnd := rfl

/-- C6 amended: for every year-month value with a nonzero in-range month
that is not a keyword, a configuration whose start and end both equal
that value is rejected by the validation layer with the
same-start-and-end error. -/
theorem c6_same_start_end_rejected (now : String) (v : String)
    (h0 : v ≠ "") (h1 : v ≠ "now") (h2 : v ≠ "start")
    (h3 : get_month_from_datemonth (some v) ≠ "")
    (h4 : get_month_from_datemonth (some v) ≠ "00")
    (h5 : toNatD (get_month_from_datemonth (some v)) ≤ 12) :
    check_datetime_input now ⟨some v, some v⟩ = Except.error CliErr.sameStartEnd := by
  have hstart : check_for_start_in_yearmonth ⟨some v, some v⟩ = Except.ok (some v, some v) := by
    simp [check_for_start_in_yearmonth, truthyStr, h0, h2]
  have hnow : check_for_now_in_yearmonth now ⟨some v, some v⟩ = Except.ok (some v, some v) := by
    simp [check_for_now_in_yearmonth, truthyStr, h0, h1]
  have hcli : check_cli_start_yearmonth ⟨some v, some v⟩ = Except.ok (some v, some v) := by
    simp [check_cli_start_yearmonth, truthyS, h3, h4, Nat.not_lt.mpr h5]
  have hend : check_cli_end_yearmonth ⟨some v, some v⟩ = Except.ok () := by
    simp [check_cli_end_yearmonth, truthyStr, truthyS, h0, h3, h4, Nat.not_lt.mpr h5]
  have hsame : check_for_same_start_yearmonth ⟨some v, some v⟩
      = Except.error CliErr.sameStartEnd := by
    simp [check_for_same_start_yearmonth]
  simp [check_datetime_input, truthyStr, h0, hstart, hnow, hcli, hend, hsame,
    Bind.bind, Except.bind]

/-- Witness for c6_same_start_end_rejected at the year-month 202203. -/
theorem c6_witness :
    check_datetime_input "202510" ⟨some "202203", some "202203"⟩
      = Except.error CliErr.sameStartEnd :=
  c6_same_start_end_rejected "202510" "202203" (by decide) (by decide) (by decide)
    (by decide) (by decide) (by decide)

/-- C9: for every namespace whose start_yearmonth is falsy while
end_yearmonth is truthy, check_for_now_in_yearmonth raises an unhandled
NameError (the local end_yearmonth is only assigned in the branch taken
for a truthy start), and check_datetime_input propagates the crash, so
the configuration is not rejected through the validation-error path. -/
theorem c9_nameerror_on_end_without_start (now : String) (s e : Option String)
    (h1 : truthyStr s = false) (h2 : truthyStr e = true) :
    check_for_now_in_yearmonth now ⟨s, e⟩ = Except.error CliErr.nameError
  ∧ check_datetime_input now ⟨s, e⟩ = Except.error CliErr.nameError := by
  have hnow : check_for_now_in_yearmonth now ⟨s, e⟩ = Except.error CliErr.nameError := by
    simp [check_for_now_in_yearmonth, h1]
  refine ⟨hnow, ?_⟩
  have hstart : check_for_start_in_yearmonth ⟨s, e⟩ = Except.ok (s, e) := by
    simp [check_for_start_in_yearmonth, h1]
  simp [check_datetime_input, h1, h2, hstart, hnow, Bind.bind, Except.bind]

/-- Witness for c9_nameerror_on_end_without_start: an empty default
start with end 202105. -/
theorem c9_witness :
    check_for_now_in_yearmonth "202510" ⟨some "", some "202105"⟩
      = Except.error CliErr.nameError
  ∧ check_datetime_input "202510" ⟨some "", some "202105"⟩
      = Except.error CliErr.nameError :=
  c9_nameerror_on_end_without_start "202510" (some "") (some "202105") rfl rfl

/-- C10: _arg_list_to_set keeps the key sequence of the args mapping,
replaces every list-valued entry by the set of that list's elements,
leaves every non-list entry unchanged, and applying it a second time is
the identity. -/
theorem c10_arg_list_to_set (args : List (String × PyVal)) :
    ((_arg_list_to_set args).map Prod.fst = args.map Prod.fst)
  ∧ (∀ k l, (k, PyVal.pyList l) ∈ args →
      ((k, PyVal.pySet l.dedup) ∈ _arg_list_to_set args ∧ ∀ x, x ∈ l.dedup ↔ x ∈ l))
  ∧ (∀ k w, (k, w) ∈ args → (∀ l, w ≠ PyVal.pyList l) → (k, w) ∈ _arg_list_to_set args)
  ∧ _arg_list_to_set (_arg_list_to_set args) = _arg_list_to_set args := by
  refine ⟨?_, ?_, ?_, ?_⟩
  · rw [_arg_list_to_set, List.map_map]
    apply List.map_congr_left
    intro kv _
    rcases kv with ⟨k, w⟩
    cases w <;> rfl
  · intro k l hmem
    exact ⟨List.mem_map.mpr ⟨(k, PyVal.pyList l), hmem, rfl⟩, fun x => List.mem_dedup⟩
  · intro k w hmem hnl
    refine List.mem_map.mpr ⟨(k, w), hmem, ?_⟩
    cases w with
    | pyList l => exact absurd rfl (hnl l)
    | pyStr s => rfl
    | pyBool b => rfl
    | pySet xs => rfl
  · induction args with
    | nil => rfl
    | cons kv rest ih =>
      rcases kv with ⟨k, w⟩
      cases w <;> simp only [_arg_list_to_set, List.map_cons] at ih ⊢ <;>
        simp only [List.map_map] at ih ⊢ <;> exact congrArg _ ih

/-- Witness for c10_arg_list_to_set on a concrete args mapping with one
list entry and one bool entry. -/
theorem c10_witness :
    (("pairs", PyVal.pySet ["a", "b"]) ∈
      _arg_list_to_set [("pairs", PyVal.pyList ["a", "a", "b"]), ("flag", PyVal.pyBool true)])
  ∧ (("flag", PyVal.pyBool true) ∈
      _arg_list_to_set [("pairs", PyVal.pyList ["a", "a", "b"]), ("flag", PyVal.pyBool true)]) :=
  ⟨((c10_arg_list_to_set
        [("pairs", PyVal.pyList ["a", "a", "b"]), ("flag", PyVal.pyBool true)]).2.1
      "pairs" ["a", "a", "b"] (by decide)).1,
   (c10_arg_list_to_set
        [("pairs", PyVal.pyList ["a", "a", "b"]), ("flag", PyVal.pyBool true)]).2.2.1
      "flag" (PyVal.pyBool true) (by decide) (fun l h => PyVal.noConfusion h)⟩
